import Mathlib

/-!
# Verification of the axum recipe in `src/main.rs`

A shallow embedding of the Rust recipe collection in `src/main.rs`.
The repository ships four `#[cfg(never)]`-gated example modules and an
active `main` that prints a fixed greeting.  The claims concern the
HTTP-server recipe (`mod axum_example`): its three handlers
(`return_json`, `decode_json`, `greet`), its bind address, and its
startup/shutdown behaviour, plus the `clap` config recipe's `Config`.

Rust `u32` values are embedded as `Nat` together with an explicit
`< 2^32` bound where it matters; Rust `char` is embedded as Lean `Char`
(both are exactly the Unicode scalar values); fallible Rust code
returns `Except`.
-/

deriving instance DecidableEq for Except

namespace RustTemplate

/-- Embeds Rust's `std::char::CharTryFromError`, the error of
`char::try_from(u32)`.  It carries no data. -/
structure CharTryFromError where
deriving DecidableEq

/-- The only HTTP status code the recipe constructs explicitly:
`StatusCode::BAD_REQUEST`. -/
inductive StatusCode where
  | BAD_REQUEST
deriving DecidableEq

/-- The numeric value of a status code: `BAD_REQUEST` is HTTP 400. -/
def StatusCode.code : StatusCode → Nat
  | .BAD_REQUEST => 400

/-- Embeds `char::try_from(n : u32)`: succeeds exactly when `n` is a
Unicode scalar value (`Nat.isValidChar` is `n < 0xD800 ∨ (0xDFFF < n ∧
n < 0x110000)`, the same condition Rust's `char` imposes). -/
def charTryFrom (n : Nat) : Except CharTryFromError Char :=
  if h : n.isValidChar then .ok (Char.ofNatAux n h) else .error ⟨⟩

/-- Embeds the struct `MyJson { foo: String, bar: Vec<u32> }` from the
axum recipe (the spec's Payload).  Elements of `bar` are `u32` values,
embedded as `Nat`. -/
structure MyJson where
  foo : String
  bar : List Nat
deriving DecidableEq

/-- Embeds `my_json.bar.into_iter().map(char::try_from)
.collect::<Result<String, _>>()`: decode left to right, stopping at
the first integer that is not a valid char. -/
def collectResultString : List Nat → Except CharTryFromError String
  | [] => .ok ""
  | n :: ns =>
    match charTryFrom n with
    | .error e => .error e
    | .ok c =>
      match collectResultString ns with
      | .error e => .error e
      | .ok s => .ok ⟨c :: s.data⟩

/-- Embeds the handler `decode_json`: decode `bar` to a string,
mapping a decode failure to `StatusCode::BAD_REQUEST`, then answer
`format!("{} {}", my_json.foo, decoded)`. -/
def decode_json (my_json : MyJson) : Except StatusCode String :=
  match (collectResultString my_json.bar).mapError (fun _ => StatusCode.BAD_REQUEST) with
  | .error e => .error e
  | .ok decoded => .ok (my_json.foo ++ " " ++ decoded)

/-- Embeds the handler `return_json`: the fixed
`MyJson { foo: "foo", bar: vec![98, 97, 114] }`. -/
def return_json : MyJson :=
  { foo := "foo", bar := [98, 97, 114] }

/-- Embeds the handler `greet`: `format!("Hello {path}")`. -/
def greet (path : String) : String :=
  "Hello " ++ path

/-- Embeds the clap recipe's `Config`: the field `bind_addr` is marked
`#[clap(env, default_value = "0.0.0.0:8080")]`, so it takes its value
from an environment-style input and falls back to the default when
that input is absent. -/
def Config.bind_addr (env_bind_addr : Option String) : String :=
  env_bind_addr.getD "0.0.0.0:8080"

/-- The address `axum_example::main` binds, as a function of the same
environment-style input: the source is the literal
`TcpListener::bind("0.0.0.0:8080")`, which consults no input at all. -/
def axum_main_bind_addr (_env_bind_addr : Option String) : String :=
  "0.0.0.0:8080"

/-- An I/O error surfaced by the runtime (from `TcpListener::bind`,
from `axum::serve`, or from installing the `ctrl_c` signal handler). -/
structure IoError where
  msg : String
deriving DecidableEq

/-- The results of the two fallible awaits in `axum_example::main`,
supplied by the runtime: `TcpListener::bind("0.0.0.0:8080").await` and
`axum::serve(listener, app).with_graceful_shutdown(...).await` (an
error from the `ctrl_c().await` inside the shutdown future surfaces
through the latter, since both are followed by `unwrap`). -/
structure MainEnv where
  bind_result : Except IoError Unit
  serve_result : Except IoError Unit
deriving DecidableEq

/-- Outcome of `axum_example::main`: `panicked` is `unwrap` hitting an
error (the process aborts); `exit0` is a normal return. -/
inductive MainOutcome where
  | panicked
  | exit0
deriving DecidableEq

/-- Embeds the control flow of `axum_example::main`: bind then
`unwrap`; serve with graceful shutdown then `unwrap`.  The second
component records whether the serve loop was ever entered (`false`
means no request was or could have been served). -/
def axum_main (env : MainEnv) : MainOutcome × Bool :=
  match env.bind_result with
  | .error _ => (.panicked, false)
  | .ok _ =>
    match env.serve_result with
    | .error _ => (.panicked, true)
    | .ok _ => (.exit0, true)

/-- The four recipe modules of `src/main.rs`, each gated by
`#[cfg(never)]`. -/
def recipe_modules : List String :=
  ["clap_example", "axum_example", "tracing_example", "reqwest_example"]

/-- Embeds conditional compilation of the recipes: the modules that
are compiled into a build in which the cfg predicate `never` evaluates
to `b`.  Every recipe module carries the same `#[cfg(never)]` gate. -/
def compiled_recipe_modules (b : Bool) : List String :=
  if b then recipe_modules else []

/-- In the delivered crate the cfg predicate `never` evaluates to
`false`: it is not a built-in cfg and no build configuration of the
crate sets it. -/
def delivered_cfg_never : Bool := false

/-- Embeds the active entry point `fn main`: the lines it prints.  Its
body is exactly `println!("Hello, world!")`. -/
def rust_main_printed : List String := ["Hello, world!"]

/-! ## Helper lemmas about the decode pipeline -/

/-- If every integer of `l` is a valid Unicode scalar value, the
`collect` succeeds and yields exactly the characters of `l`, in
order. -/
theorem collectResultString_ok_of_valid (l : List Nat)
    (h : ∀ n ∈ l, n.isValidChar) :
    collectResultString l = .ok ⟨l.map Char.ofNat⟩ := by
  induction l with
  | nil => rfl
  | cons n ns ih =>
    have hn : n.isValidChar := h n (List.mem_cons_self n ns)
    have hns := ih (fun m hm => h m (List.mem_cons_of_mem n hm))
    simp [collectResultString, charTryFrom, hn, hns, Char.ofNat]

/-- If some integer of `l` is not a valid Unicode scalar value, the
`collect` short-circuits to the (unique) decode error. -/
theorem collectResultString_error_of_invalid (l : List Nat)
    (h : ∃ n ∈ l, ¬ n.isValidChar) :
    collectResultString l = .error ⟨⟩ := by
  induction l with
  | nil => simp at h
  | cons n ns ih =>
    by_cases hn : n.isValidChar
    · obtain ⟨m, hm, hmv⟩ := h
      rcases List.mem_cons.mp hm with rfl | hm'
      · exact absurd hn hmv
      · simp [collectResultString, charTryFrom, hn, ih ⟨m, hm', hmv⟩]
    · simp [collectResultString, charTryFrom, hn]

/-! ## Claim theorems -/

/-- C1 (counterexample): on the all-valid input
`MyJson { foo: "foo", bar: [98, 97, 114] }` the handler answers
`"foo bar"` — the label, a space, then the decoded characters `"bar"` —
which is not the plain concatenation `"foo" ++ "bar"` of the label with
the decoded character sequence. -/
theorem decode_json_not_bare_concat :
    (∀ n ∈ ([98, 97, 114] : List Nat), Nat.isValidChar n) ∧
    decode_json ⟨"foo", [98, 97, 114]⟩ = .ok "foo bar" ∧
    String.mk (([98, 97, 114] : List Nat).map Char.ofNat) = "bar" ∧
    "foo bar" ≠ "foo" ++ "bar" := by
  decide

/-- C1 (amended): for every payload whose integers are all valid
Unicode scalar values, `decode_json` succeeds and its body is the
label, a single space, then the characters obtained by decoding each
integer in order. -/
theorem decode_json_valid_decodes (j : MyJson)
    (h : ∀ n ∈ j.bar, Nat.isValidChar n) :
    decode_json j = .ok (j.foo ++ " " ++ String.mk (j.bar.map Char.ofNat)) := by
  simp [decode_json, collectResultString_ok_of_valid j.bar h, Except.mapError]

/-- Witness for `decode_json_valid_decodes` at the concrete payload
`{ foo := "hi", bar := [72, 105] }`. -/
theorem decode_json_valid_decodes_witness :
    (∀ n ∈ ([72, 105] : List Nat), Nat.isValidChar n) ∧
    decode_json ⟨"hi", [72, 105]⟩ =
      .ok ("hi" ++ " " ++ String.mk (([72, 105] : List Nat).map Char.ofNat)) :=
  ⟨by decide, decode_json_valid_decodes ⟨"hi", [72, 105]⟩ (by decide)⟩

/-- C2: for every payload containing at least one integer that is not
a valid Unicode scalar value, `decode_json` answers the client error
`StatusCode::BAD_REQUEST` (HTTP 400) and no string at all — `Except`
carries either the error or the full string, never a partial one. -/
theorem decode_json_invalid_bad_request (j : MyJson)
    (h : ∃ n ∈ j.bar, ¬ Nat.isValidChar n) :
    decode_json j = .error StatusCode.BAD_REQUEST ∧
      StatusCode.BAD_REQUEST.code = 400 := by
  refine ⟨?_, rfl⟩
  simp [decode_json, collectResultString_error_of_invalid j.bar h, Except.mapError]

/-- Witness for `decode_json_invalid_bad_request` at the concrete
payload `{ foo := "x", bar := [72, 55296, 105] }` (55296 = 0xD800, a
surrogate, sitting between two valid integers). -/
theorem decode_json_invalid_bad_request_witness :
    (∃ n ∈ ([72, 55296, 105] : List Nat), ¬ Nat.isValidChar n) ∧
    decode_json ⟨"x", [72, 55296, 105]⟩ = .error StatusCode.BAD_REQUEST ∧
      StatusCode.BAD_REQUEST.code = 400 :=
  ⟨by decide, decode_json_invalid_bad_request ⟨"x", [72, 55296, 105]⟩ (by decide)⟩

/-- C3: `return_json` takes no input and is a single fixed value, so
every invocation yields the identical label `"foo"` and the identical
sequence `[98, 97, 114]`. -/
theorem return_json_fixed :
    return_json.foo = "foo" ∧ return_json.bar = [98, 97, 114] ∧
    return_json = { foo := "foo", bar := [98, 97, 114] } :=
  ⟨rfl, rfl, rfl⟩

/-- C4: `greet` embeds every path-segment string into the fixed
template `"Hello {name}"`; in particular `greet "Bob" = "Hello Bob"`. -/
theorem greet_template (name : String) :
    greet name = "Hello " ++ name ∧ greet "Bob" = "Hello Bob" :=
  ⟨rfl, rfl⟩

/-- C5 (counterexample): with the environment-style input set to
`"127.0.0.1:3000"`, the clap recipe's `Config` would yield that
address, but the server's bind address is the literal
`"0.0.0.0:8080"` regardless — the served address is not
configurable. -/
theorem axum_bind_addr_ignores_env :
    Config.bind_addr (some "127.0.0.1:3000") = "127.0.0.1:3000" ∧
    axum_main_bind_addr (some "127.0.0.1:3000") = "0.0.0.0:8080" ∧
    axum_main_bind_addr (some "127.0.0.1:3000") ≠ "127.0.0.1:3000" := by
  refine ⟨rfl, rfl, by decide⟩

/-- C5 (amended): the clap recipe's `Config.bind_addr` is
environment-configurable and defaults to `"0.0.0.0:8080"`, but the
server recipe never consults it: `axum_example::main` binds the fixed
address `"0.0.0.0:8080"` whatever the environment holds. -/
theorem bind_addr_values (env : Option String) (s : String) :
    axum_main_bind_addr env = "0.0.0.0:8080" ∧
    Config.bind_addr none = "0.0.0.0:8080" ∧
    Config.bind_addr (some s) = s :=
  ⟨rfl, rfl, rfl⟩

/-- C6 (counterexample): a bind failure is not the only fatal path —
when bind succeeds but `axum::serve(...).await` yields an error, the
trailing `unwrap` panics as well, so the process aborts rather than
continuing. -/
theorem serve_error_also_fatal :
    axum_main ⟨.ok (), .error ⟨"serve failed"⟩⟩ = (MainOutcome.panicked, true) ∧
    (MainEnv.mk (.ok ()) (.error ⟨"serve failed"⟩)).bind_result = .ok () :=
  ⟨rfl, rfl⟩

/-- C6 (amended): if `TcpListener::bind` fails, `unwrap` panics at
once: the process aborts with no retry and the serve loop is never
entered, so no request is served.  (Bind failure is, however, not the
only fatal path — see `serve_error_also_fatal`; decode failures remain
per-request `BAD_REQUEST` responses.) -/
theorem bind_failure_aborts (env : MainEnv) (e : IoError)
    (h : env.bind_result = .error e) :
    axum_main env = (MainOutcome.panicked, false) := by
  simp [axum_main, h]

/-- Witness for `bind_failure_aborts` at a concrete environment where
bind fails with "address in use". -/
theorem bind_failure_aborts_witness :
    (MainEnv.mk (.error ⟨"address in use"⟩) (.ok ())).bind_result =
      .error ⟨"address in use"⟩ ∧
    axum_main ⟨.error ⟨"address in use"⟩, .ok ()⟩ = (MainOutcome.panicked, false) :=
  ⟨rfl, bind_failure_aborts ⟨.error ⟨"address in use"⟩, .ok ()⟩ ⟨"address in use"⟩ rfl⟩

/-- C8: in the delivered build the cfg predicate `never` is false, so
no recipe module is compiled in, and the active `fn main` prints
exactly the fixed greeting `"Hello, world!"` and nothing else. -/
theorem delivered_build_inert :
    compiled_recipe_modules delivered_cfg_never = [] ∧
    delivered_cfg_never = false ∧
    rust_main_printed = ["Hello, world!"] :=
  ⟨rfl, rfl, rfl⟩

/-- C9: echo-decoding the exact payload produced by `return_json`
(label `"foo"`, sequence `[98, 97, 114]`) succeeds with body
`"foo bar"`. -/
theorem fetch_then_decode_roundtrip :
    decode_json return_json = .ok "foo bar" := by
  decide

/-- C10: for every `u32` value `n`, decoding `n` fails exactly when
`n` is a surrogate (`0xD800 ≤ n ≤ 0xDFFF`) or exceeds `0x10FFFF`, and
succeeds with some character exactly otherwise — the valid range is
precisely the Unicode scalar values. -/
theorem charTryFrom_unicode_scalar_range (n : Nat) (_h : n < 2 ^ 32) :
    (charTryFrom n = .error ⟨⟩ ↔ (0xD800 ≤ n ∧ n ≤ 0xDFFF) ∨ 0x10FFFF < n) ∧
    ((∃ c, charTryFrom n = .ok c) ↔
      n ≤ 0x10FFFF ∧ ¬ (0xD800 ≤ n ∧ n ≤ 0xDFFF)) := by
  by_cases hv : n.isValidChar
  · have hv' : n < 0xd800 ∨ (0xdfff < n ∧ n < 0x110000) := hv
    constructor
    · simp [charTryFrom, hv]
      omega
    · simp [charTryFrom, hv]
      omega
  · have hv' : ¬ (n < 0xd800 ∨ (0xdfff < n ∧ n < 0x110000)) := hv
    constructor
    · simp [charTryFrom, hv]
      omega
    · simp [charTryFrom, hv]
      omega

/-- Witness for `charTryFrom_unicode_scalar_range` at the concrete
surrogate 0xD800 = 55296. -/
theorem charTryFrom_unicode_scalar_range_witness :
    (55296 : Nat) < 2 ^ 32 ∧ charTryFrom 55296 = .error ⟨⟩ :=
  ⟨by decide,
    ((charTryFrom_unicode_scalar_range 55296 (by decide)).1).mpr (by decide)⟩

end RustTemplate
